import Mathlib

/-!
Verification development for the outlook-backup utility.

Shallow embedding of the core pipeline (filter engine, email exporter,
connector retry loop) of the repository.  Strings are modelled as lists of
characters; each COM property read is modelled by the `Attr` type:
the attribute may be absent (`hasattr` is false / AttributeError), may raise
an exception on access (`raises`), or yields a value (`val`).
Exception text coming from the host environment (COM error strings) is
abstracted where it is not computable from the program itself.
-/

/-- Strings as lists of characters (Python `str`). -/
abbrev Str := List Char

/-- Python `str.lower()` (ASCII case folding suffices for the modelled data). -/
def lowerStr (s : Str) : Str := s.map Char.toLower

/-- `matchesAt n h` : `n` is an initial segment of `h`. -/
def matchesAt : Str → Str → Bool
  | [], _ => true
  | _ :: _, [] => false
  | a :: as, b :: bs => a = b && matchesAt as bs

/-- Python `needle in hay` substring containment. -/
def isSubstr (needle : Str) : Str → Bool
  | [] => needle.isEmpty
  | c :: rest => matchesAt needle (c :: rest) || isSubstr needle rest

/-- Characters removed by Python `str.strip()` (whitespace). -/
def wsChars : List Char := [' ', '\t', '\n', '\r', '\x0b', '\x0c']

/-- Drop leading characters that belong to `cs` (Python `str.lstrip(cs)`). -/
def lstripChars (cs : List Char) : Str → Str
  | [] => []
  | c :: rest => if c ∈ cs then lstripChars cs rest else c :: rest

/-- Drop trailing characters that belong to `cs` (Python `str.rstrip(cs)`). -/
def rstripChars (cs : List Char) (s : Str) : Str :=
  (lstripChars cs s.reverse).reverse

/-- Python `str.strip(cs)`. -/
def stripChars (cs : List Char) (s : Str) : Str :=
  lstripChars cs (rstripChars cs s)

/-- Python `str.strip()` with no argument: strip whitespace. -/
def pyStrip (s : Str) : Str := stripChars wsChars s

/-- Decimal digits of a natural number (no padding), Python `str(n)`. -/
def natStr (n : Nat) : Str := Nat.toDigits 10 n

/-- Zero-padded decimal rendering of width `w` (`strftime` fields, `f"{:02d}"`). -/
def padZeros (w : Nat) (n : Nat) : Str :=
  let d := Nat.toDigits 10 n
  List.replicate (w - d.length) '0' ++ d

/-- Decimal rendering of an integer, Python `str(i)`. -/
def intStr (i : Int) : Str :=
  if i < 0 then '-' :: Nat.toDigits 10 i.natAbs else Nat.toDigits 10 i.toNat

/-- Naive local timestamps (`datetime`): compared lexicographically by field. -/
structure DateTime where
  year : Nat
  month : Nat
  day : Nat
  hour : Nat
  minute : Nat
  second : Nat
deriving DecidableEq

/-- Field list used for the lexicographic comparison of `DateTime`. -/
def DateTime.fields (d : DateTime) : List Nat :=
  [d.year, d.month, d.day, d.hour, d.minute, d.second]

/-- Lexicographic strict order on equal-length lists of naturals. -/
def natListLt : List Nat → List Nat → Bool
  | [], [] => false
  | [], _ :: _ => true
  | _ :: _, [] => false
  | a :: as, b :: bs => if a < b then true else if b < a then false else natListLt as bs

/-- Python `datetime` strict comparison `a < b`. -/
def dtLt (a b : DateTime) : Bool := natListLt a.fields b.fields

/-- Python `datetime` comparison `a <= b`. -/
def dtLe (a b : DateTime) : Bool := !dtLt b a

/-- Outcome of accessing a dynamic COM property: attribute missing
(AttributeError, so `hasattr` is false), access raising another exception,
or a value. -/
inductive Attr (α : Type) where
  | absent : Attr α
  | raises : Attr α
  | val : α → Attr α
deriving DecidableEq

instance {ε α : Type} [DecidableEq ε] [DecidableEq α] : DecidableEq (Except ε α)
  | .error e1, .error e2 =>
    if h : e1 = e2 then isTrue (by rw [h]) else isFalse (fun hh => by cases hh; exact h rfl)
  | .error _, .ok _ => isFalse (fun hh => by cases hh)
  | .ok _, .error _ => isFalse (fun hh => by cases hh)
  | .ok a1, .ok a2 =>
    if h : a1 = a2 then isTrue (by rw [h]) else isFalse (fun hh => by cases hh; exact h rfl)

/-- Exchange directory entry returned by `GetExchangeUser()`. -/
structure ExchangeUser where
  primarySmtpAddress : Attr Str
deriving DecidableEq

/-- The `email.Sender` COM object: the directory lookup call (which may raise,
modelled by `Except.error`, or return a falsy object, modelled by `none`) and
its `Address` property. -/
structure SenderObj where
  getExchangeUser : Except Unit (Option ExchangeUser)
  address : Attr Str
deriving DecidableEq

/-- One Outlook mail item, restricted to the properties the core reads.
`receivedTime`/`creationTime` carry `Except.error` when the COM-date
conversion fails; `saveResult` models `SaveAs` followed by `getsize`
(`Except.error msg` = the save raised with text `msg`, `Except.ok n` = saved
file of `n` bytes).  `sender = Attr.val none` models a falsy `Sender`. -/
structure EmailItem where
  senderEmailType : Attr Str
  sender : Attr (Option SenderObj)
  senderEmailAddress : Attr Str
  senderName : Attr Str
  subject : Attr Str
  receivedTime : Attr (Except Unit DateTime)
  creationTime : Attr (Except Unit DateTime)
  saveResult : Except Str Nat
deriving DecidableEq

/-- Effective timestamp: `email.ReceivedTime`, falling back to
`email.CreationTime` on AttributeError; any other exception (including a
conversion failure) propagates to the enclosing handler (`Except.error`).
This code appears identically in `filter_engine._filter_by_date_range` and
`email_exporter.export_email`. -/
def effectiveDate (e : EmailItem) : Except Unit DateTime :=
  match e.receivedTime with
  | .val d => d
  | .absent =>
    match e.creationTime with
    | .val d => d
    | _ => .error ()
  | .raises => .error ()

/-- Per-item decision of `_filter_by_date_range`: a timestamp failure keeps
the item (the `except` branch appends it); otherwise the item is dropped when
it lies strictly before `date_from` or strictly after `date_to`. -/
def dateKeep (dateFrom dateTo : Option DateTime) (e : EmailItem) : Bool :=
  match effectiveDate e with
  | .error _ => true
  | .ok t =>
    if (match dateFrom with | some f => dtLt t f | none => false) then false
    else if (match dateTo with | some u => dtLt u t | none => false) then false
    else true

/-- `FilterEngine._filter_by_date_range`. -/
def filterByDateRange (dateFrom dateTo : Option DateTime) : List EmailItem → List EmailItem
  | [] => []
  | e :: es =>
    if dateKeep dateFrom dateTo e then e :: filterByDateRange dateFrom dateTo es
    else filterByDateRange dateFrom dateTo es

/-- Inner `try` block of the Exchange branch of sender resolution: any raise
inside it is swallowed, leaving the sender string empty. -/
def exchangeSenderLookup (e : EmailItem) : Str :=
  match e.sender with
  | .raises => []
  | .absent => []
  | .val none => []
  | .val (some so) =>
    match so.getExchangeUser with
    | .error _ => []
    | .ok none => []
    | .ok (some xu) =>
      match xu.primarySmtpAddress with
      | .raises => []
      | .absent => []
      | .val a => a

/-- Sender-address resolution of `FilterEngine._filter_by_sender`
(lines 109-128): Exchange SMTP lookup when the type tag is "EX", else
`SenderEmailAddress`, else `Sender.Address`.  `Except.error` = an exception
escaped to the per-item handler. -/
def filterSenderAddr (e : EmailItem) : Except Unit Str :=
  match e.senderEmailType with
  | .raises => .error ()
  | ty =>
    let s0 : Str :=
      match ty with
      | .val t => if t = "EX".data then exchangeSenderLookup e else []
      | _ => []
    if s0.isEmpty then
      match e.senderEmailAddress with
      | .raises => .error ()
      | .val a => .ok a
      | .absent =>
        match e.sender with
        | .raises => .error ()
        | .val (some so) =>
          match so.address with
          | .raises => .error ()
          | .val a => .ok a
          | .absent => .ok []
        | _ => .ok []
    else .ok s0

/-- `sender_name` computation of `_filter_by_sender` (lines 130-133). -/
def filterSenderName (e : EmailItem) : Except Unit Str :=
  match e.senderName with
  | .raises => .error ()
  | .absent => .ok []
  | .val n => .ok n

/-- The pair (resolved address, display name) that `_filter_by_sender`
matches against; `Except.error` = the per-item handler fired (`continue`). -/
def senderResolve (e : EmailItem) : Except Unit (Str × Str) :=
  match filterSenderAddr e with
  | .error _ => .error ()
  | .ok a =>
    match filterSenderName e with
    | .error _ => .error ()
    | .ok n => .ok (a, n)

/-- Per-item decision of `_filter_by_sender`, for the already lowered and
stripped query `k`: keep when `k` occurs in the lowered address or the
lowered display name; an exception drops the item. -/
def senderKeep (k : Str) (e : EmailItem) : Bool :=
  match senderResolve e with
  | .error _ => false
  | .ok (a, n) => isSubstr k (lowerStr a) || isSubstr k (lowerStr n)

/-- Loop of `_filter_by_sender` over the list, with normalized query `k`. -/
def filterBySenderAux (k : Str) : List EmailItem → List EmailItem
  | [] => []
  | e :: es =>
    if senderKeep k e then e :: filterBySenderAux k es else filterBySenderAux k es

/-- `FilterEngine._filter_by_sender`: normalizes the query with
`sender.lower().strip()` and filters. -/
def filterBySender (sender : Str) (emails : List EmailItem) : List EmailItem :=
  filterBySenderAux (pyStrip (lowerStr sender)) emails

/-- Per-item decision of `_filter_by_subject` with normalized keyword `k`:
an empty or unreadable subject never matches; an exception drops the item. -/
def subjectKeep (k : Str) (e : EmailItem) : Bool :=
  match e.subject with
  | .raises => false
  | .absent => false
  | .val s => if s.isEmpty then false else isSubstr k (lowerStr s)

/-- Loop of `_filter_by_subject`, with normalized keyword `k`. -/
def filterBySubjectAux (k : Str) : List EmailItem → List EmailItem
  | [] => []
  | e :: es =>
    if subjectKeep k e then e :: filterBySubjectAux k es else filterBySubjectAux k es

/-- `FilterEngine._filter_by_subject`: normalizes the keyword with
`subject_keyword.lower().strip()` and filters. -/
def filterBySubject (keyword : Str) (emails : List EmailItem) : List EmailItem :=
  filterBySubjectAux (pyStrip (lowerStr keyword)) emails

/-- The filter-criteria dictionary: absent keys are `none`; note that in
Python an empty query string is falsy and skips its stage. -/
structure Filters where
  dateFrom : Option DateTime
  dateTo : Option DateTime
  sender : Option Str
  subject : Option Str

/-- `FilterEngine.apply_filters`: stages applied in sequence, each stage
guarded by the truthiness of its criteria (`None` and `""` are falsy). -/
def applyFilters (f : Filters) (emails : List EmailItem) : List EmailItem :=
  let e1 :=
    if f.dateFrom.isSome || f.dateTo.isSome then
      filterByDateRange f.dateFrom f.dateTo emails
    else emails
  let e2 :=
    match f.sender with
    | some s => if s.isEmpty then e1 else filterBySender s e1
    | none => e1
  match f.subject with
  | some s => if s.isEmpty then e2 else filterBySubject s e2
  | none => e2

/-- The characters stripped by the invalid-character regex
`[<>:"/\\|?*\x00-\x1f]` of `email_exporter`. -/
def isInvalidChar (c : Char) : Bool :=
  c = '<' || c = '>' || c = ':' || c = '\"' || c = '/' || c = '\\' ||
  c = '|' || c = '?' || c = '*' || c.toNat < 32

/-- `re.sub(invalid_chars, '_', s)`. -/
def replaceInvalid (s : Str) : Str :=
  s.map (fun c => if isInvalidChar c then '_' else c)

/-- `re.sub(r'_+', '_', s)`: collapse each run of underscores to one. -/
def collapseUnderscores (s : Str) : Str :=
  s.foldr (fun c acc => if c = '_' ∧ acc.head? = some '_' then acc else c :: acc) []

/-- `EmailExporter._sanitize_filename`. -/
def sanitizeFilename (filename : Str) : Str :=
  let sanitized := stripChars ['.', ' '] (replaceInvalid filename)
  if sanitized.isEmpty then "unnamed".data else sanitized

/-- `EmailExporter._sanitize_folder_name` (used for sender folders). -/
def sanitizeFolderName (folderName : Str) : Str :=
  let sanitized := stripChars ['.', ' '] (replaceInvalid folderName)
  if sanitized.isEmpty then "unknown".data else sanitized

/-- `EmailExporter._sanitize_subject_folder`: replace invalid characters,
collapse underscore runs, strip leading/trailing dots, spaces and
underscores, truncate to 50 characters (re-stripping trailing underscores),
defaulting to "No_Subject". -/
def sanitizeSubjectFolder (subject : Str) : Str :=
  if subject.isEmpty then "No_Subject".data
  else
    let s1 := collapseUnderscores (replaceInvalid subject)
    let s2 := stripChars ['.', ' ', '_'] s1
    let s3 := if s2.length > 50 then rstripChars ['_'] (s2.take 50) else s2
    if s3.isEmpty then "No_Subject".data else s3

/-- Sender-address resolution of `EmailExporter._extract_sender_email`
(lines 145-164); textually the same algorithm as `filterSenderAddr`. -/
def extractSenderAddrCore (e : EmailItem) : Except Unit Str :=
  match e.senderEmailType with
  | .raises => .error ()
  | ty =>
    let s0 : Str :=
      match ty with
      | .val t => if t = "EX".data then exchangeSenderLookup e else []
      | _ => []
    if s0.isEmpty then
      match e.senderEmailAddress with
      | .raises => .error ()
      | .val a => .ok a
      | .absent =>
        match e.sender with
        | .raises => .error ()
        | .val (some so) =>
          match so.address with
          | .raises => .error ()
          | .val a => .ok a
          | .absent => .ok []
        | _ => .ok []
    else .ok s0

/-- `EmailExporter._extract_sender_email`: after the shared address core,
fall back to `SenderName`, then to the placeholder "unknown_sender"; any
exception also yields "unknown_sender". -/
def extractSenderEmail (e : EmailItem) : Str :=
  match extractSenderAddrCore e with
  | .error _ => "unknown_sender".data
  | .ok a =>
    if a.isEmpty then
      match e.senderName with
      | .raises => "unknown_sender".data
      | .absent => "unknown_sender".data
      | .val n => if n.isEmpty then "unknown_sender".data else n
    else a

/-- `EmailExporter._extract_subject`: empty on absence, falsiness or any
exception, otherwise the stripped subject. -/
def extractSubject (e : EmailItem) : Str :=
  match e.subject with
  | .raises => []
  | .absent => []
  | .val s => if s.isEmpty then [] else pyStrip s

/-- Exporter construction arguments (`EmailExporter.__init__`). -/
structure ExporterConfig where
  backupLocation : Str
  organizeByDate : Bool
  includeAttachments : Bool
  senderFilterEnabled : Bool
  subjectFilterEnabled : Bool

/-- Mutable exporter statistics (`exported_count`, `total_size`, `errors`). -/
structure ExpState where
  exportedCount : Nat
  totalSize : Nat
  errors : List Str
deriving DecidableEq

/-- `os.path.join` with a single separator character. -/
def joinPath (a b : Str) : Str := a ++ ['/'] ++ b

/-- `EmailExporter._get_output_directory`: sender organization first, else
subject organization, then year/month on top when organize-by-date is on.
The year directory is `str(year)` (unpadded), the month is `f"{:02d}"`. -/
def getOutputDirectory (cfg : ExporterConfig) (e : EmailItem) (dt : DateTime) : Str :=
  let base := cfg.backupLocation
  let base :=
    if cfg.senderFilterEnabled then joinPath base (sanitizeFolderName (extractSenderEmail e))
    else if cfg.subjectFilterEnabled then joinPath base (sanitizeSubjectFolder (extractSubject e))
    else base
  if cfg.organizeByDate then joinPath (joinPath base (natStr dt.year)) (padZeros 2 dt.month)
  else base

/-- `email_date.strftime("%Y%m%d_%H%M%S")`. -/
def fmtDateStr (dt : DateTime) : Str :=
  padZeros 4 dt.year ++ padZeros 2 dt.month ++ padZeros 2 dt.day ++ "_".data ++
  padZeros 2 dt.hour ++ padZeros 2 dt.minute ++ padZeros 2 dt.second

/-- The `subject = email.Subject if email.Subject else "no_subject"` step of
`_generate_filename` (inside its own `try`, so any read failure also yields
"no_subject"). -/
def rawSubject (e : EmailItem) : Str :=
  match e.subject with
  | .raises => "no_subject".data
  | .absent => "no_subject".data
  | .val s => if s.isEmpty then "no_subject".data else s

/-- `EmailExporter._generate_filename`: note the subject is truncated to 20
characters first and sanitized afterwards. -/
def generateFilename (e : EmailItem) (dt : DateTime) : Str :=
  "email_".data ++ fmtDateStr dt ++ "_".data ++
    sanitizeFilename ((rawSubject e).take 20) ++ ".msg".data

/-- Modelled from the spec: the filename shape asserted by the specification,
`email_<YYYYMMDD>_<HHMMSS>_<first 20 chars of sanitized subject or
"no_subject">.msg`, i.e. sanitization applied before truncation.  Kept for
comparison against `generateFilename`, which the source defines with the
opposite order. -/
def specFilename (e : EmailItem) (dt : DateTime) : Str :=
  "email_".data ++ fmtDateStr dt ++ "_".data ++
    (sanitizeFilename (rawSubject e)).take 20 ++ ".msg".data

/-- Scan of `os.path.splitext`: walk the reversed path up to the last dot of
the final component (stopping at a path separator). -/
def splitExtAux : List Char → List Char → Option (Str × Str)
  | [], _ => none
  | c :: rest, acc =>
    if c = '.' then some (rest.reverse, '.' :: acc)
    else if c = '/' then none
    else splitExtAux rest (c :: acc)

/-- `os.path.splitext` (restricted to the dotted names produced here). -/
def splitExt (p : Str) : Str × Str :=
  match splitExtAux p.reverse [] with
  | none => (p, [])
  | some be => be

/-- The candidate path `f"{base}_{counter}{ext}"`. -/
def numberedPath (base : Str) (counter : Nat) (ext : Str) : Str :=
  base ++ "_".data ++ natStr counter ++ ext

/-- The `while os.path.exists(...)` search of `_handle_collision`: least
counter from 1 whose numbered path is free.  `fs` is the finite set of
existing paths, so `fs.length + 1` probes always suffice as fuel. -/
def findFreeCounter (fs : List Str) (base ext : Str) : Nat → Nat → Nat
  | 0, c => c
  | fuel + 1, c =>
    if numberedPath base c ext ∈ fs then findFreeCounter fs base ext fuel (c + 1) else c

/-- `EmailExporter._handle_collision` against the set `fs` of existing paths. -/
def handleCollision (fs : List Str) (filepath : Str) : Str :=
  if filepath ∈ fs then
    let be := splitExt filepath
    numberedPath be.1 (findFreeCounter fs be.1 be.2 (fs.length + 1) 1) be.2
  else filepath

/-- Prefix of every error recorded by `export_email`
(`f"Failed to export email: {str(e)}"`). -/
def failPrefix : Str := "Failed to export email: ".data

/-- `EmailExporter.export_email` over explicit state: the exporter counters
and the list `fs` of files existing in the backup tree.  `os.makedirs` and
`os.path.getsize` are modelled as succeeding (their failure would flow into
the same handler as a save failure).  The exception text for an unreadable
date is abstracted to a fixed string.  Returns the `(success, message)` pair
together with the updated state. -/
def exportEmail (cfg : ExporterConfig) (st : ExpState) (fs : List Str) (e : EmailItem) :
    (Bool × Str) × ExpState × List Str :=
  match effectiveDate e with
  | .error _ =>
    let msg := failPrefix ++ "unreadable date".data
    ((false, msg), ⟨st.exportedCount, st.totalSize, st.errors ++ [msg]⟩, fs)
  | .ok dt =>
    let dir := getOutputDirectory cfg e dt
    let filepath := handleCollision fs (joinPath dir (generateFilename e dt))
    match e.saveResult with
    | .error m =>
      let msg := failPrefix ++ m
      ((false, msg), ⟨st.exportedCount, st.totalSize, st.errors ++ [msg]⟩, fs)
    | .ok size =>
      ((true, filepath),
        ⟨st.exportedCount + 1, st.totalSize + size, st.errors⟩, fs ++ [filepath])

/-- The fields of `EmailExporter.get_summary` (the floating-point
`total_size_mb` field is omitted). -/
structure ExportSummary where
  exportedCount : Nat
  totalSize : Nat
  errors : List Str
  errorCount : Nat
  backupLocation : Str
deriving DecidableEq

/-- `EmailExporter.get_summary`. -/
def getSummary (cfg : ExporterConfig) (st : ExpState) : ExportSummary :=
  ⟨st.exportedCount, st.totalSize, st.errors, st.errors.length, cfg.backupLocation⟩

/-- The backup loop of `main.start_backup` over the filtered items (the
cooperative cancellation flag is modelled as never set, as in the scenarios
considered here); collects the per-item `(success, message)` results. -/
def runBackupGo (cfg : ExporterConfig) (st : ExpState) (fs : List Str) :
    List EmailItem → ExpState × List Str × List (Bool × Str)
  | [] => (st, fs, [])
  | e :: es =>
    let r := exportEmail cfg st fs e
    let rest := runBackupGo cfg r.2.1 r.2.2 es
    (rest.1, rest.2.1, r.1 :: rest.2.2)

/-- A full backup run from a fresh exporter (`EmailExporter.__init__` zeroes
the statistics) and an initially empty backup tree. -/
def runBackup (cfg : ExporterConfig) (emails : List EmailItem) :
    ExpState × List Str × List (Bool × Str) :=
  runBackupGo cfg ⟨0, 0, []⟩ [] emails

/-- Outcome of the COM portion of one connect attempt (attach, namespace,
inbox probe), after the process check has passed: success, a
`pywintypes.com_error` with its code and text, or any other exception with
its text (this includes the folder-access ConnectionError raised inside). -/
inductive ComOutcome where
  | ok : ComOutcome
  | comErr : Int → Str → ComOutcome
  | exc : Str → ComOutcome
deriving DecidableEq

/-- Environment of one connect attempt: whether the process inspection finds
OUTLOOK.EXE, and how the COM portion would turn out. -/
structure AttemptEnv where
  processRunning : Bool
  com : ComOutcome
deriving DecidableEq

/-- First line of the ConnectionError raised when the process check fails
(the remediation lines of the message are elided). -/
def notRunningMsg : Str :=
  "Outlook is not running.\n\nIMPORTANT: This tool requires CLASSIC Outlook.".data

/-- Message built by the generic `except Exception` handler of `connect`. -/
def unexpectedMsg (m : Str) : Str :=
  "Unexpected error connecting to Outlook:\n".data ++ m ++
  "\n\nMake sure:\n1. Outlook is installed and running\n2. You have pywin32 installed (pip install pywin32)\n3. Outlook has at least one email account configured".data

/-- Message for COM error code -2146959355 (server execution failed);
remediation lines elided. -/
def serverExecMsg : Str :=
  "Outlook connection failed (Server execution failed).".data

/-- Message for COM error code -2147221005 (invalid class string). -/
def notRegisteredMsg : Str :=
  "Outlook is not properly installed or registered.\n\nPlease reinstall Microsoft Office/Outlook.".data

/-- Message for any other COM error code; remediation lines elided. -/
def comGenericMsg (code : Int) (m : Str) : Str :=
  "COM Error connecting to Outlook (Code: ".data ++ intStr code ++ "):\n".data ++ m

/-- Classification done by the `except pywintypes.com_error` handler. -/
def comErrMsgFor (code : Int) (m : Str) : Str :=
  if code = -2146959355 then serverExecMsg
  else if code = -2147221005 then notRegisteredMsg
  else comGenericMsg code m

/-- Message of the fallback ConnectionError raised when the loop ends with
no recorded error (only possible with a zero retry budget). -/
def noAttemptMsg : Str :=
  "Failed to connect to Outlook after multiple attempts".data

/-- Error recorded by one attempt of `connect` (`none` = attempt succeeds).
A failing process check raises ConnectionError, which is not a
`pywintypes.com_error` and therefore lands in the generic handler. -/
def attemptError (env : AttemptEnv) : Option Str :=
  if !env.processRunning then some (unexpectedMsg notRunningMsg)
  else
    match env.com with
    | .ok => none
    | .comErr code m => some (comErrMsgFor code m)
    | .exc m => some (unexpectedMsg m)

/-- Observable result of `connect`: whether it returned True, the message of
the ConnectionError it raised otherwise, the sleeps performed (in order),
and how many attempts were used. -/
structure ConnResult where
  ok : Bool
  raised : Option Str
  sleeps : List Nat
  attemptsUsed : Nat
deriving DecidableEq

/-- The `for attempt in range(retry_count)` loop of `connect`: `i` is the
current attempt index, the second argument the remaining attempts, then the
running `last_error` and the accumulated sleeps (reversed). -/
def connectGo (envs : Nat → AttemptEnv) (retryCount waitSeconds : Nat) :
    Nat → Nat → Option Str → List Nat → ConnResult
  | i, 0, lastErr, sleeps => ⟨false, some (lastErr.getD noAttemptMsg), sleeps.reverse, i⟩
  | i, r + 1, _lastErr, sleeps =>
    match attemptError (envs i) with
    | none => ⟨true, none, sleeps.reverse, i + 1⟩
    | some m =>
      connectGo envs retryCount waitSeconds (i + 1) r (some m)
        (if i < retryCount - 1 then waitSeconds :: sleeps else sleeps)

/-- `OutlookConnector.connect(retry_count, wait_seconds)` under the
per-attempt environment `envs`. -/
def connect (envs : Nat → AttemptEnv) (retryCount waitSeconds : Nat) : ConnResult :=
  connectGo envs retryCount waitSeconds 0 retryCount none []

/-- Environment in which the Outlook process is never running. -/
def deadEnv : Nat → AttemptEnv := fun _ => ⟨false, .ok⟩

/-- A mail item with every property absent. -/
def blankItem : EmailItem :=
  ⟨.absent, .absent, .absent, .absent, .absent, .absent, .absent, .ok 0⟩

/-- Item whose only sender information is the display name "Bob". -/
def bobItem : EmailItem :=
  { blankItem with senderName := .val "Bob".data }

/-- Item whose resolved sender address is "xax" and display name is empty. -/
def xaxItem : EmailItem :=
  { blankItem with senderEmailAddress := .val "xax".data }

/-- Item whose resolved sender address is "alice@x.com". -/
def aliceItem : EmailItem :=
  { blankItem with senderEmailAddress := .val "alice@x.com".data }

/-- A reference timestamp. -/
def dtRef : DateTime := ⟨2025, 1, 2, 3, 4, 5⟩

/-- Item received at `dtRef`. -/
def dtRefItem : EmailItem :=
  { blankItem with receivedTime := .val (.ok dtRef) }

/-- Item whose subject is twenty spaces followed by "x": truncating to 20
characters before sanitizing erases the whole subject. -/
def spacesItem : EmailItem :=
  { blankItem with subject := .val (List.replicate 20 ' ' ++ ['x']) }

/-- Well-formed item number `i` of the five-item export scenario: received at
second `i`, subject "a", save succeeding with 10 bytes. -/
def goodItem (i : Nat) : EmailItem :=
  { blankItem with
      subject := .val "a".data
      receivedTime := .val (.ok ⟨2025, 1, 1, 0, 0, i⟩)
      saveResult := .ok 10 }

/-- Item 3 of the five-item export scenario: its save raises. -/
def badSaveItem : EmailItem :=
  { goodItem 3 with saveResult := .error "save failed".data }

/-- The five-item export run of end-to-end scenario 3: items 1,2,4,5 export
cleanly, item 3 throws on save. -/
def scenario3Items : List EmailItem :=
  [goodItem 1, goodItem 2, badSaveItem, goodItem 4, goodItem 5]

/-- Exporter configuration used for the scenario runs: plain placement,
attachments included. -/
def plainConfig : ExporterConfig := ⟨"root".data, false, true, false, false⟩

theorem filterByDateRange_sub (df dt : Option DateTime) :
    ∀ l, List.Sublist (filterByDateRange df dt l) l
  | [] => List.Sublist.refl _
  | e :: es => by
    simp only [filterByDateRange]
    split
    · exact List.Sublist.cons₂ e (filterByDateRange_sub df dt es)
    · exact List.Sublist.cons e (filterByDateRange_sub df dt es)

theorem filterBySenderAux_sub (k : Str) :
    ∀ l, List.Sublist (filterBySenderAux k l) l
  | [] => List.Sublist.refl _
  | e :: es => by
    simp only [filterBySenderAux]
    split
    · exact List.Sublist.cons₂ e (filterBySenderAux_sub k es)
    · exact List.Sublist.cons e (filterBySenderAux_sub k es)

theorem filterBySubjectAux_sub (k : Str) :
    ∀ l, List.Sublist (filterBySubjectAux k l) l
  | [] => List.Sublist.refl _
  | e :: es => by
    simp only [filterBySubjectAux]
    split
    · exact List.Sublist.cons₂ e (filterBySubjectAux_sub k es)
    · exact List.Sublist.cons e (filterBySubjectAux_sub k es)

theorem dateStage_sub (df dt : Option DateTime) (b : Bool) (l : List EmailItem) :
    List.Sublist (if b then filterByDateRange df dt l else l) l := by
  split
  · exact filterByDateRange_sub df dt l
  · exact List.Sublist.refl _

theorem senderStage_sub (o : Option Str) (l : List EmailItem) :
    List.Sublist
      (match o with
       | some s => if s.isEmpty then l else filterBySender s l
       | none => l) l := by
  match o with
  | none => exact List.Sublist.refl _
  | some s =>
    simp only
    split
    · exact List.Sublist.refl _
    · exact filterBySenderAux_sub _ l

theorem subjectStage_sub (o : Option Str) (l : List EmailItem) :
    List.Sublist
      (match o with
       | some s => if s.isEmpty then l else filterBySubject s l
       | none => l) l := by
  match o with
  | none => exact List.Sublist.refl _
  | some s =>
    simp only
    split
    · exact List.Sublist.refl _
    · exact filterBySubjectAux_sub _ l

/-- C1: for every filter-criteria record and every item list,
`apply_filters` returns a subsequence of its input: every element of the
output occurs in the input, nothing is duplicated or inserted, and the
relative order is preserved. -/
theorem apply_filters_subsequence (f : Filters) (emails : List EmailItem) :
    List.Sublist (applyFilters f emails) emails := by
  unfold applyFilters
  exact List.Sublist.trans (subjectStage_sub f.subject _)
    (List.Sublist.trans (senderStage_sub f.sender _)
      (dateStage_sub f.dateFrom f.dateTo _ emails))

/-- C2: with both bounds set, an item whose effective timestamp reads as `T`
is kept by the date-range stage iff `dateFrom <= T <= dateTo` (both bounds
inclusive); an item whose timestamp read or conversion raises is always
kept; and the stage is exactly the filter of that per-item decision. -/
theorem date_range_stage_inclusive (f u : DateTime) (e : EmailItem) :
    (∀ T, effectiveDate e = Except.ok T →
        (dateKeep (some f) (some u) e = true ↔ dtLe f T = true ∧ dtLe T u = true)) ∧
    (effectiveDate e = Except.error () → dateKeep (some f) (some u) e = true) ∧
    (∀ es, filterByDateRange (some f) (some u) es =
        es.filter (dateKeep (some f) (some u))) := by
  refine ⟨?_, ?_, ?_⟩
  · intro T hT
    unfold dateKeep dtLe
    rw [hT]
    cases h1 : dtLt T f <;> cases h2 : dtLt u T <;> simp [h1, h2]
  · intro hT
    unfold dateKeep
    rw [hT]
  · intro es
    induction es with
    | nil => rfl
    | cons a l ih => simp only [filterByDateRange, List.filter_cons, ih]

/-- Spot check for C2: retention is inclusive on both bounds — an item whose
timestamp equals both `dateFrom` and `dateTo` is kept. -/
theorem date_range_stage_inclusive_spot :
    dateKeep (some dtRef) (some dtRef) dtRefItem = true ∧
      effectiveDate dtRefItem = Except.ok dtRef :=
  ⟨((date_range_stage_inclusive dtRef dtRef dtRefItem).1 dtRef rfl).mpr (by decide), rfl⟩

/-- C3 counterexample: the sender stage normalizes the query with
`lower().strip()`, so for the padded query `" a "` the item with sender
address "xax" is retained even though the query itself is not a substring of
either the resolved address or the (empty) display name — the claim as
stated fails for queries with surrounding whitespace. -/
theorem sender_stage_query_strip_cx :
    filterBySender " a ".data [xaxItem] = [xaxItem] ∧
    senderResolve xaxItem = Except.ok ("xax".data, []) ∧
    isSubstr (lowerStr " a ".data) (lowerStr "xax".data) = false ∧
    isSubstr (lowerStr " a ".data) (lowerStr ([] : Str)) = false := by
  exact ⟨rfl, rfl, by decide, by decide⟩

/-- C3 (amended): the sender stage retains an item iff the
whitespace-trimmed, lowercased query occurs as a substring of the lowercased
resolved sender address or of the lowercased display name; an item whose
sender property reads raise is dropped; an item with no resolvable sender
string at all is dropped for every non-empty trimmed query; and the stage is
exactly the filter of that per-item decision. -/
theorem sender_stage_matching (q : Str) (e : EmailItem) :
    (∀ a n, senderResolve e = Except.ok (a, n) →
        (senderKeep (pyStrip (lowerStr q)) e = true ↔
          (isSubstr (pyStrip (lowerStr q)) (lowerStr a) = true ∨
           isSubstr (pyStrip (lowerStr q)) (lowerStr n) = true))) ∧
    (senderResolve e = Except.error () → senderKeep (pyStrip (lowerStr q)) e = false) ∧
    (senderResolve e = Except.ok ([], []) → pyStrip (lowerStr q) ≠ [] →
        senderKeep (pyStrip (lowerStr q)) e = false) ∧
    (∀ es, filterBySender q es = es.filter (senderKeep (pyStrip (lowerStr q)))) := by
  refine ⟨?_, ?_, ?_, ?_⟩
  · intro a n h
    unfold senderKeep
    rw [h]
    simp [Bool.or_eq_true]
  · intro h
    unfold senderKeep
    rw [h]
  · intro h hq
    unfold senderKeep
    rw [h]
    have hk : (pyStrip (lowerStr q)).isEmpty = false := by
      cases hc : pyStrip (lowerStr q) with
      | nil => exact absurd hc hq
      | cons c t => rfl
    show (isSubstr (pyStrip (lowerStr q)) (lowerStr []) ||
      isSubstr (pyStrip (lowerStr q)) (lowerStr [])) = false
    show (isSubstr (pyStrip (lowerStr q)) [] || isSubstr (pyStrip (lowerStr q)) []) = false
    rw [show isSubstr (pyStrip (lowerStr q)) [] = (pyStrip (lowerStr q)).isEmpty from rfl, hk]
    rfl
  · intro es
    unfold filterBySender
    induction es with
    | nil => rfl
    | cons a l ih => simp only [filterBySenderAux, List.filter_cons, ih]

/-- Spot check for C3: the query "Alice" retains an item whose resolved
sender address is "alice@x.com". -/
theorem sender_stage_matching_spot :
    senderKeep (pyStrip (lowerStr "Alice".data)) aliceItem = true :=
  ((sender_stage_matching "Alice".data aliceItem).1 "alice@x.com".data [] rfl).mpr
    (Or.inl (by decide))

/-- C6 counterexample: sanitizing the subject "Hello <World>/Test" for folder
use does not yield "Hello _World__Test" — the adjacent `>` and `/` first
become `__`, and `_sanitize_subject_folder` then collapses that run of
underscores to a single one. -/
theorem subject_folder_scenario2_cx :
    sanitizeSubjectFolder "Hello <World>/Test".data ≠ "Hello _World__Test".data := by
  decide

/-- C6 (amended): sanitizing the subject "Hello <World>/Test" for folder use
yields exactly "Hello _World_Test" (`<`, `>`, `/` are replaced by
underscores and the resulting double underscore is collapsed to one). -/
theorem subject_folder_scenario2 :
    sanitizeSubjectFolder "Hello <World>/Test".data = "Hello _World_Test".data := by
  decide

theorem lstripChars_isSfx (cs : List Char) :
    ∀ s : Str, ∃ t, t ++ lstripChars cs s = s
  | [] => ⟨[], rfl⟩
  | c :: rest => by
    unfold lstripChars
    split
    · obtain ⟨t, ht⟩ := lstripChars_isSfx cs rest
      exact ⟨c :: t, by rw [List.cons_append, ht]⟩
    · exact ⟨[], rfl⟩

theorem lstripChars_head (cs : List Char) :
    ∀ s c t, lstripChars cs s = c :: t → c ∉ cs
  | [], c, t => by intro h; cases h
  | a :: rest, c, t => by
    unfold lstripChars
    split
    · exact lstripChars_head cs rest c t
    · intro h hc
      cases h
      simp_all

theorem lstripChars_of_head (cs : List Char) (s : Str)
    (h : ∀ c t, s = c :: t → c ∉ cs) : lstripChars cs s = s := by
  cases s with
  | nil => rfl
  | cons a rest =>
    unfold lstripChars
    rw [if_neg (h a rest rfl)]

theorem lstripChars_idem (cs : List Char) (s : Str) :
    lstripChars cs (lstripChars cs s) = lstripChars cs s :=
  lstripChars_of_head cs _ (fun c t h => lstripChars_head cs s c t h)

theorem mem_lstripChars (cs : List Char) (s : Str) (c : Char)
    (h : c ∈ lstripChars cs s) : c ∈ s := by
  obtain ⟨t, ht⟩ := lstripChars_isSfx cs s
  rw [← ht]
  exact List.mem_append_right t h

theorem mem_stripChars (cs : List Char) (s : Str) (c : Char)
    (h : c ∈ stripChars cs s) : c ∈ s := by
  unfold stripChars rstripChars at h
  have h1 := mem_lstripChars cs _ c h
  rw [List.mem_reverse] at h1
  have h2 := mem_lstripChars cs _ c h1
  rw [List.mem_reverse] at h2
  exact h2

theorem stripChars_rev_head (cs : List Char) (s : Str) :
    ∀ c t, (lstripChars cs (rstripChars cs s)).reverse = c :: t → c ∉ cs := by
  intro c t h
  obtain ⟨p, hp⟩ := lstripChars_isSfx cs (rstripChars cs s)
  have hur : (rstripChars cs s).reverse = lstripChars cs s.reverse := by
    unfold rstripChars
    rw [List.reverse_reverse]
  have hs2 : lstripChars cs s.reverse = c :: (t ++ p.reverse) := by
    rw [← hur, ← hp, List.reverse_append, h, List.cons_append]
  exact lstripChars_head cs s.reverse c _ hs2

theorem stripChars_idem (cs : List Char) (s : Str) :
    stripChars cs (stripChars cs s) = stripChars cs s := by
  have hl : lstripChars cs (lstripChars cs (rstripChars cs s)).reverse =
      (lstripChars cs (rstripChars cs s)).reverse := by
    apply lstripChars_of_head
    intro c t h
    exact stripChars_rev_head cs s c t h
  have hrv : rstripChars cs (lstripChars cs (rstripChars cs s)) =
      lstripChars cs (rstripChars cs s) := by
    show (lstripChars cs (lstripChars cs (rstripChars cs s)).reverse).reverse = _
    rw [hl, List.reverse_reverse]
  show lstripChars cs (rstripChars cs (lstripChars cs (rstripChars cs s))) =
    lstripChars cs (rstripChars cs s)
  rw [hrv]
  exact lstripChars_idem cs _

theorem replaceInvalid_valid (s : Str) :
    ∀ c ∈ replaceInvalid s, isInvalidChar c = false := by
  intro c hc
  rw [replaceInvalid, List.mem_map] at hc
  obtain ⟨a, _, ha⟩ := hc
  cases hia : isInvalidChar a with
  | false =>
    rw [← ha, if_neg (by simp [hia])]
    exact hia
  | true =>
    rw [← ha, if_pos hia]
    decide

theorem replaceInvalid_id (s : Str)
    (h : ∀ c ∈ s, isInvalidChar c = false) : replaceInvalid s = s := by
  induction s with
  | nil => rfl
  | cons a l ih =>
    have ha : isInvalidChar a = false := h a (List.mem_cons_self a l)
    have hl2 := ih (fun c hc => h c (List.mem_cons_of_mem a hc))
    show (if isInvalidChar a then '_' else a) :: replaceInvalid l = a :: l
    rw [hl2, if_neg (by simp [ha])]

/-- C7: filename sanitization is idempotent, its output contains none of the
invalid characters `< > : " / \ | ? *` nor control characters, and its
output is never the empty string. -/
theorem sanitize_filename_props (s : Str) :
    sanitizeFilename (sanitizeFilename s) = sanitizeFilename s ∧
    (sanitizeFilename s).all (fun c => !isInvalidChar c) = true ∧
    sanitizeFilename s ≠ [] := by
  have hvalid : ∀ c ∈ stripChars ['.', ' '] (replaceInvalid s), isInvalidChar c = false :=
    fun c hc => replaceInvalid_valid s c (mem_stripChars _ _ c hc)
  cases ht : (stripChars ['.', ' '] (replaceInvalid s)).isEmpty with
  | true =>
    have hs : sanitizeFilename s = "unnamed".data := by
      simp [sanitizeFilename, ht]
    rw [hs]
    refine ⟨by decide, by decide, by decide⟩
  | false =>
    have hs : sanitizeFilename s = stripChars ['.', ' '] (replaceInvalid s) := by
      simp [sanitizeFilename, ht]
    rw [hs]
    refine ⟨?_, ?_, ?_⟩
    · have h1 : replaceInvalid (stripChars ['.', ' '] (replaceInvalid s)) =
          stripChars ['.', ' '] (replaceInvalid s) := replaceInvalid_id _ hvalid
      simp [sanitizeFilename, h1, stripChars_idem, ht]
    · rw [List.all_eq_true]
      intro c hc
      rw [Bool.not_eq_true']
      exact hvalid c hc
    · intro hnil
      rw [hnil] at ht
      cases ht

theorem connectGo_dead (rc ws : Nat) (envs : Nat → AttemptEnv)
    (h : ∀ i, (envs i).processRunning = false) :
    ∀ r i acc le, i + r = rc → 1 ≤ r →
      connectGo envs rc ws i r le acc =
        ⟨false, some (unexpectedMsg notRunningMsg),
          acc.reverse ++ List.replicate (r - 1) ws, rc⟩ := by
  intro r
  induction r with
  | zero => intro i acc le hi hr; omega
  | succ r ih =>
    intro i acc le hi hr
    have ha : attemptError (envs i) = some (unexpectedMsg notRunningMsg) := by
      unfold attemptError
      rw [h i]
      rfl
    show (match attemptError (envs i) with
      | none => ConnResult.mk true none acc.reverse (i + 1)
      | some m =>
        connectGo envs rc ws (i + 1) r (some m)
          (if i < rc - 1 then ws :: acc else acc)) = _
    rw [ha]
    cases r with
    | zero =>
      have hlt : ¬ i < rc - 1 := by omega
      show connectGo envs rc ws (i + 1) 0 (some (unexpectedMsg notRunningMsg))
          (if i < rc - 1 then ws :: acc else acc) = _
      rw [if_neg hlt]
      show ConnResult.mk false (some (unexpectedMsg notRunningMsg)) acc.reverse (i + 1) = _
      have h1 : i + 1 = rc := by omega
      rw [h1]
      simp
    | succ r2 =>
      have hlt : i < rc - 1 := by omega
      show connectGo envs rc ws (i + 1) (r2 + 1) (some (unexpectedMsg notRunningMsg))
          (if i < rc - 1 then ws :: acc else acc) = _
      rw [if_pos hlt]
      rw [ih (i + 1) (ws :: acc) (some (unexpectedMsg notRunningMsg)) (by omega) (by omega)]
      simp [List.replicate_succ, List.append_assoc]

/-- C4 counterexample: with the Outlook process not running and the default
budget of 3 attempts and 2-second delays, `connect` does not return after
the first attempt — it sleeps twice between attempts and uses all three
attempts before raising, contradicting the claimed immediate failure without
inter-attempt sleep. -/
theorem connect_dead_cx :
    (connect deadEnv 3 2).sleeps = [2, 2] ∧ (connect deadEnv 3 2).sleeps ≠ [] ∧
      (connect deadEnv 3 2).attemptsUsed = 3 := by
  decide

/-- C4 (amended): when the external process is not running, every attempt
raises the not-running ConnectionError, which the generic exception handler
records (wrapped in the unexpected-error text) and then sleeps; `connect`
sleeps `wait_seconds` between consecutive attempts (`retry_count - 1` sleeps
in total), uses the whole attempt budget, and raises the wrapped not-running
error only after the final attempt.  Each process check consumes an
attempt. -/
theorem connect_dead_retries (envs : Nat → AttemptEnv) (rc ws : Nat)
    (h : ∀ i, (envs i).processRunning = false) (hrc : 1 ≤ rc) :
    connect envs rc ws =
      ⟨false, some (unexpectedMsg notRunningMsg), List.replicate (rc - 1) ws, rc⟩ := by
  unfold connect
  have := connectGo_dead rc ws envs h rc 0 [] none (by omega) hrc
  simpa using this

/-- Spot check for C4 (amended) at the default budget. -/
theorem connect_dead_retries_spot :
    connect deadEnv 3 2 =
      ⟨false, some (unexpectedMsg notRunningMsg), [2, 2], 3⟩ := by
  simpa using connect_dead_retries deadEnv 3 2 (fun _ => rfl) (by omega)

/-- C5: in the five-item export run where only item 3 throws on save, the
exception is caught, exactly one error string is recorded, item 3 reports a
failure flag rather than re-raising, items 4 and 5 are still attempted and
succeed, and the final summary reports `exported_count = 4` and
`error_count = 1`. -/
theorem export_run_scenario3 :
    (getSummary plainConfig (runBackup plainConfig scenario3Items).1).exportedCount = 4 ∧
    (getSummary plainConfig (runBackup plainConfig scenario3Items).1).errorCount = 1 ∧
    (runBackup plainConfig scenario3Items).2.2.map Prod.fst =
      [true, true, false, true, true] ∧
    (runBackup plainConfig scenario3Items).1.errors =
      [failPrefix ++ "save failed".data] := by
  decide

/-- C8 counterexample: `_generate_filename` truncates the subject to 20
characters before sanitizing, not after.  For a subject of twenty spaces
followed by "x", the code produces the "unnamed" placeholder part, while the
claimed shape (first 20 characters of the sanitized subject) would keep
"x". -/
theorem filename_truncation_cx :
    generateFilename spacesItem dtRef = "email_20250102_030405_unnamed.msg".data ∧
    specFilename spacesItem dtRef = "email_20250102_030405_x.msg".data ∧
    generateFilename spacesItem dtRef ≠ specFilename spacesItem dtRef := by
  refine ⟨by decide, by decide, by decide⟩

/-- C8 (amended): the generated filename is
`email_<YYYYMMDD>_<HHMMSS>_<sanitization of the first 20 characters of the
subject, or of "no_subject" when the subject is absent, empty or
unreadable>.msg` — truncation happens before sanitization. -/
theorem filename_format (e : EmailItem) (dt : DateTime) :
    generateFilename e dt =
      "email_".data ++ padZeros 4 dt.year ++ padZeros 2 dt.month ++ padZeros 2 dt.day ++
      "_".data ++ padZeros 2 dt.hour ++ padZeros 2 dt.minute ++ padZeros 2 dt.second ++
      "_".data ++ sanitizeFilename ((rawSubject e).take 20) ++ ".msg".data := by
  simp [generateFilename, fmtDateStr, List.append_assoc]

/-- C9 counterexample: the exporter's placeholder is "unknown_sender", not
"unknown sender", and on an item whose only sender datum is the display name
"Bob" the exporter resolves "Bob" while the filter engine's address
resolution yields the empty string — the two modules do not compute the same
sender string. -/
theorem sender_resolution_shared_cx :
    extractSenderEmail blankItem = "unknown_sender".data ∧
    extractSenderEmail blankItem ≠ "unknown sender".data ∧
    extractSenderEmail bobItem = "Bob".data ∧
    filterSenderAddr bobItem = Except.ok [] := by
  exact ⟨rfl, by decide, rfl, rfl⟩

/-- C9 (amended): the three-step address-resolution core (Exchange SMTP
lookup, then `SenderEmailAddress`, then `Sender.Address`) is the same
algorithm in the filter engine and in the exporter and computes the same
string for every item; the exporter then additionally falls back to the
display name and finally to the literal placeholder "unknown_sender" (also
used when resolution raises), whereas the filter stage keeps the empty
address and matches the display name separately. -/
theorem sender_resolution_shared_core (e : EmailItem) :
    filterSenderAddr e = extractSenderAddrCore e ∧
    extractSenderEmail e =
      (match filterSenderAddr e with
       | Except.error _ => "unknown_sender".data
       | Except.ok a =>
         if a.isEmpty then
           match e.senderName with
           | .raises => "unknown_sender".data
           | .absent => "unknown_sender".data
           | .val n => if n.isEmpty then "unknown_sender".data else n
         else a) :=
  ⟨rfl, rfl⟩

/-- C10: `export_email` never reads the `include_attachments` flag — with
every other configuration field, the exporter state, the existing-file set
and the item fixed, flipping the flag changes nothing in the produced
result, counters, errors or file list. -/
theorem include_attachments_noninterference (loc : Str) (od sf subf : Bool)
    (st : ExpState) (fs : List Str) (e : EmailItem) :
    exportEmail ⟨loc, od, true, sf, subf⟩ st fs e =
      exportEmail ⟨loc, od, false, sf, subf⟩ st fs e := by
  cases h1 : effectiveDate e with
  | error u => simp [exportEmail, h1]
  | ok dt =>
    cases h2 : e.saveResult with
    | error m => simp [exportEmail, h1, h2, getOutputDirectory]
    | ok size => simp [exportEmail, h1, h2, getOutputDirectory]
